import Mathlib

/-!
Verification development for the decision-intelligence platform backend.

The Python sources under `backend/` are shallowly embedded below:
* `models.py` — the data contracts (`TechOption`, `Constraints`, `OptionScore`,
  `TradeOff`, `KiroAnalysis`, `ComparisonRequest`, `ComparisonResult`);
* `scoring.py` — the `ScoringEngine` per-dimension scores and aggregation;
* `tradeoffs.py` — the `TradeOffGenerator` pairwise comparison;
* `kiro_agent.py` — the `KiroAgent` narrative analysis;
* `decision_engine.py` — the orchestrating `DecisionEngine`;
* `main.py` / `db.py` — the HTTP endpoints with the store collaborator.

Modelling conventions: Python floats are embedded as `ℚ` (all constants in the
source are small decimals, and no claim depends on binary floating-point
artifacts); `round(x, 2)` is embedded as `round2` using Mathlib's `round`
(round-half-up; no claim exercises a half-way tie); fallible Python code
(list indexing that can raise `IndexError`, dict lookup that can raise
`KeyError`) is embedded in `Except String`; Python's stable `sorted` with a
key and `reverse=True` is embedded as `List.insertionSort` with the
non-strict "greater or equal on the key" relation, which is stable in the
same sense.
-/

namespace DecisionPlatform

/-- `models.CloudProvider` (str enum: aws, azure, gcp, multi). -/
inductive CloudProvider where
  | aws
  | azure
  | gcp
  | multi
deriving DecidableEq, Fintype

/-- `models.ComplianceLevel` (str enum: none, basic, hipaa, soc2, pci, gdpr). -/
inductive ComplianceLevel where
  | none
  | basic
  | hipaa
  | soc2
  | pci
  | gdpr
deriving DecidableEq, Fintype

/-- `models.SkillLevel` (str enum: beginner, intermediate, advanced, expert). -/
inductive SkillLevel where
  | beginner
  | intermediate
  | advanced
  | expert
deriving DecidableEq, Fintype

/-- `models.TechOption`: a candidate technology. Numeric attributes are on a
documented 1-10 scale. -/
structure TechOption where
  name : String
  description : String
  cost : ℚ
  latency : ℚ
  scalability : ℚ
  compliance : ComplianceLevel
  cloud : CloudProvider
  team_skill_required : SkillLevel
  pros : List String
  cons : List String
deriving DecidableEq

/-- `models.Constraints`: the buyer's requirement profile. -/
structure Constraints where
  budget : ℚ
  max_latency : ℚ
  required_scale : ℚ
  compliance : ComplianceLevel
  preferred_cloud : Option CloudProvider
  team_skill : SkillLevel
deriving DecidableEq

/-- `models.ComparisonRequest`. -/
structure ComparisonRequest where
  options : List TechOption
  constraints : Constraints
  use_case : String
  description : Option String
deriving DecidableEq

/-- `models.OptionScore`: the derived per-option score record. -/
structure OptionScore where
  option_name : String
  total_score : ℚ
  cost_score : ℚ
  latency_score : ℚ
  scalability_score : ℚ
  compliance_score : ℚ
  cloud_score : ℚ
  skill_score : ℚ
  weighted_score : ℚ
deriving DecidableEq

/-- `models.TradeOff`. -/
structure TradeOff where
  option_a : String
  option_b : String
  dimension : String
  winner : String
  explanation : String
  impact : String
deriving DecidableEq

/-- `models.KiroAnalysis`. `best_for_scenarios` (a Python `Dict[str, str]`
built by successive insertion) is embedded as an association list in
insertion order. -/
structure KiroAnalysis where
  summary : String
  key_insights : List String
  recommendations : List String
  risk_factors : List String
  best_for_scenarios : List (String × String)
deriving DecidableEq

/-- `models.ComparisonResult`. -/
structure ComparisonResult where
  comparison_id : Option String
  scores : List OptionScore
  tradeoffs : List TradeOff
  kiro_analysis : KiroAnalysis
  timestamp : Option String
deriving DecidableEq

/-- Python's `round(x, 2)`, embedded over `ℚ` with Mathlib's `round`
(nearest integer, halves up; the source's values never hit a tie in any
statement below). -/
def round2 (q : ℚ) : ℚ := (round (q * 100) : ℤ) / 100

/-- `ScoringEngine.__init__`: the fixed scoring-weight dictionary
`self.weights`. A key outside the six dimensions would be a `KeyError` in
Python; it is never looked up, and the embedding returns 0 there. -/
def weights (d : String) : ℚ :=
  if d = "cost" then 0.25
  else if d = "latency" then 0.20
  else if d = "scalability" then 0.20
  else if d = "compliance" then 0.15
  else if d = "cloud" then 0.10
  else if d = "skill" then 0.10
  else 0

/-- `ScoringEngine._score_cost`. -/
def scoreCost (option_cost budget_constraint : ℚ) : ℚ :=
  if budget_constraint ≥ option_cost then 10
  else max 0 (10 - (option_cost - budget_constraint) / budget_constraint * 5)

/-- `ScoringEngine._score_latency`. -/
def scoreLatency (option_latency latency_constraint : ℚ) : ℚ :=
  if option_latency ≤ latency_constraint then 10
  else max 0 (10 - (option_latency - latency_constraint) / latency_constraint * 5)

/-- `ScoringEngine._score_scalability`. -/
def scoreScalability (option_scalability required_scale : ℚ) : ℚ :=
  if option_scalability ≥ required_scale then
    min 10 (8 + min 2 ((option_scalability - required_scale) / required_scale))
  else
    max 0 (8 - (required_scale - option_scalability) / required_scale * 8)

/-- `ScoringEngine._score_compliance`: the `compliance_levels` rank table. -/
def complianceLevels : ComplianceLevel → ℤ
  | .none => 0
  | .basic => 1
  | .soc2 => 2
  | .hipaa => 3
  | .pci => 3
  | .gdpr => 4

/-- `ScoringEngine._score_compliance`. -/
def scoreCompliance (option_compliance required_compliance : ComplianceLevel) : ℚ :=
  let option_level := complianceLevels option_compliance
  let required_level := complianceLevels required_compliance
  if option_level ≥ required_level then 10
  else max 0 (10 - ((required_level : ℚ) - option_level) * 3)

/-- `ScoringEngine._score_cloud`. `preferred_cloud` is optional; Python's
`if not preferred_cloud` is the `none` case (the enum's string values are
all truthy). -/
def scoreCloud (option_cloud : CloudProvider) (preferred_cloud : Option CloudProvider) : ℚ :=
  match preferred_cloud with
  | .none => 8
  | .some preferred =>
    if option_cloud = preferred then 10
    else if option_cloud = CloudProvider.multi then 9
    else 6

/-- `ScoringEngine._score_skill`: the `skill_levels` rank table (the
`.get(_, 1)` default is unreachable, the enum being total). -/
def skillLevels : SkillLevel → ℤ
  | .beginner => 1
  | .intermediate => 2
  | .advanced => 3
  | .expert => 4

/-- `ScoringEngine._score_skill`. As at the call site in
`_score_single_option`, the first parameter is the option's required skill
and the second the team's skill. -/
def scoreSkill (required_skill team_skill : SkillLevel) : ℚ :=
  let required_level := skillLevels required_skill
  let team_level := skillLevels team_skill
  if team_level ≥ required_level then 10
  else max 0 (10 - ((required_level : ℚ) - team_level) * 3)

/-- `ScoringEngine._score_single_option`. -/
def scoreSingleOption (option : TechOption) (constraints : Constraints) : OptionScore :=
  let cost_score := scoreCost option.cost constraints.budget
  let latency_score := scoreLatency option.latency constraints.max_latency
  let scalability_score := scoreScalability option.scalability constraints.required_scale
  let compliance_score := scoreCompliance option.compliance constraints.compliance
  let cloud_score := scoreCloud option.cloud constraints.preferred_cloud
  let skill_score := scoreSkill option.team_skill_required constraints.team_skill
  let weighted_score :=
    cost_score * weights "cost" +
    latency_score * weights "latency" +
    scalability_score * weights "scalability" +
    compliance_score * weights "compliance" +
    cloud_score * weights "cloud" +
    skill_score * weights "skill"
  let total_score := (cost_score + latency_score + scalability_score +
    compliance_score + cloud_score + skill_score) / 6
  { option_name := option.name
    total_score := round2 total_score
    cost_score := round2 cost_score
    latency_score := round2 latency_score
    scalability_score := round2 scalability_score
    compliance_score := round2 compliance_score
    cloud_score := round2 cloud_score
    skill_score := round2 skill_score
    weighted_score := round2 weighted_score }

/-- The sort relation of `ScoringEngine.score_options`:
`sorted(scores, key=lambda x: x.weighted_score, reverse=True)`, a stable
sort descending on `weighted_score`. -/
def wsGe (a b : OptionScore) : Prop := b.weighted_score ≤ a.weighted_score

instance : DecidableRel wsGe :=
  fun a b => inferInstanceAs (Decidable (b.weighted_score ≤ a.weighted_score))

instance : IsTotal OptionScore wsGe := ⟨fun a b => le_total b.weighted_score a.weighted_score⟩

instance : IsTrans OptionScore wsGe := ⟨fun _ _ _ h h2 => le_trans h2 h⟩

/-- `ScoringEngine.score_options`: score each option, then Python's stable
`sorted(..., reverse=True)` on `weighted_score`, embedded as a stable
insertion sort with the non-strict descending relation. -/
def scoreOptions (options : List TechOption) (constraints : Constraints) : List OptionScore :=
  List.insertionSort wsGe (options.map (fun o => scoreSingleOption o constraints))

/-- `TradeOffGenerator._calculate_impact`. -/
def calculateImpact (score_difference : ℚ) : String :=
  if score_difference ≥ 4 then "high"
  else if score_difference ≥ 2 then "medium"
  else "low"

/-- One dimension block of `TradeOffGenerator._compare_options`. All six
blocks in the source are identical except for the dimension name, the
per-dimension score accessor and the explanation template, which are
passed in here. -/
def tradeoffBlock (dim : String) (expl : String → String → String)
    (va vb : ℚ) (option_a option_b : TechOption) : List TradeOff :=
  if |va - vb| > 1 then
    let winner := if va > vb then option_a.name else option_b.name
    let loser := if winner = option_a.name then option_b.name else option_a.name
    [{ option_a := option_a.name
       option_b := option_b.name
       dimension := dim
       winner := winner
       explanation := expl winner loser
       impact := calculateImpact |va - vb| }]
  else []

/-- `TradeOffGenerator._compare_options`: the six dimension blocks in source
order (cost, latency, scalability, compliance, cloud, skill). -/
def compareOptionsPair (option_a option_b : TechOption)
    (score_a score_b : OptionScore) : List TradeOff :=
  tradeoffBlock "cost" (fun w l => w ++ " is more cost-effective than " ++ l)
    score_a.cost_score score_b.cost_score option_a option_b ++
  tradeoffBlock "latency" (fun w l => w ++ " offers better latency performance than " ++ l)
    score_a.latency_score score_b.latency_score option_a option_b ++
  tradeoffBlock "scalability" (fun w l => w ++ " scales better than " ++ l)
    score_a.scalability_score score_b.scalability_score option_a option_b ++
  tradeoffBlock "compliance" (fun w l => w ++ " better meets compliance requirements than " ++ l)
    score_a.compliance_score score_b.compliance_score option_a option_b ++
  tradeoffBlock "cloud" (fun w l => w ++ " better aligns with cloud preferences than " ++ l)
    score_a.cloud_score score_b.cloud_score option_a option_b ++
  tradeoffBlock "skill" (fun w l => w ++ " better matches team skill level than " ++ l)
    score_a.skill_score score_b.skill_score option_a option_b

/-- The `score_lookup` dict of `TradeOffGenerator.generate_tradeoffs`:
`{score.option_name: score for score in scores}` keeps the last entry per
name; lookup of a missing name is a `KeyError`. -/
def lookupScore (scores : List OptionScore) (name : String) : Except String OptionScore :=
  match (scores.filter (fun s => s.option_name = name)).getLast? with
  | .some s => .ok s
  | .none => .error ("KeyError: " ++ name)

/-- Inner loop of `TradeOffGenerator.generate_tradeoffs`: pair `option_a`
(at index `i`) with each later option in turn. The score lookups happen
inside the inner loop, as in the source. -/
def generateTradeoffsInner (scores : List OptionScore) (option_a : TechOption) :
    List TechOption → Except String (List TradeOff)
  | [] => .ok []
  | option_b :: rest =>
    match lookupScore scores option_a.name with
    | .error e => .error e
    | .ok score_a =>
      match lookupScore scores option_b.name with
      | .error e => .error e
      | .ok score_b =>
        match generateTradeoffsInner scores option_a rest with
        | .error e => .error e
        | .ok more => .ok (compareOptionsPair option_a option_b score_a score_b ++ more)

/-- Outer loop of `TradeOffGenerator.generate_tradeoffs`: for each index
`i`, compare `options[i]` with every `options[j]`, `j > i`. -/
def generateTradeoffsAux (scores : List OptionScore) :
    List TechOption → Except String (List TradeOff)
  | [] => .ok []
  | option_a :: rest =>
    match generateTradeoffsInner scores option_a rest with
    | .error e => .error e
    | .ok here =>
      match generateTradeoffsAux scores rest with
      | .error e => .error e
      | .ok tail => .ok (here ++ tail)

/-- `TradeOffGenerator.generate_tradeoffs`. -/
def generateTradeoffs (options : List TechOption) (scores : List OptionScore) :
    Except String (List TradeOff) :=
  generateTradeoffsAux scores options

/-- Helper for the embedding of Python's `in` on strings: does `t` start
with `pat` (character-wise)? -/
def charsStartWith : List Char → List Char → Bool
  | _, [] => true
  | [], _ :: _ => false
  | a :: s, b :: t => a == b && charsStartWith s t

/-- Helper for Python's substring test `pat in s` (character-wise). -/
def charsContain : List Char → List Char → Bool
  | [], pat => pat.isEmpty
  | a :: s, pat => charsStartWith (a :: s) pat || charsContain s pat

/-- Python's `pat in s` on strings. -/
def strContains (s pat : String) : Bool := charsContain s.data pat.data

/-- Python's `str.lower()`, character-wise (ASCII-faithful for all inputs
concerned; implemented structurally so terms evaluate by reduction). -/
def pyLower (s : String) : String := ⟨s.data.map Char.toLower⟩

/-- Python's `str.strip()`: remove leading and trailing whitespace
(implemented structurally so terms evaluate by reduction). -/
def pyStrip (s : String) : String :=
  ⟨((s.data.dropWhile Char.isWhitespace).reverse.dropWhile Char.isWhitespace).reverse⟩

/-- Python's `max(xs, key=key)` over a non-empty list `x :: xs`: the first
element attaining the maximal key (ties keep the earlier element). Also
models `xs[ys.index(max(ys))]` where `ys = [key x for x in xs]`. -/
def pyMaxBy (key : OptionScore → ℚ) (x : OptionScore) (xs : List OptionScore) : OptionScore :=
  xs.foldl (fun acc s => if key acc < key s then s else acc) x

/-- Python's stable `sorted(xs, key=key, reverse=True)`. -/
def sortDescBy (key : OptionScore → ℚ) (l : List OptionScore) : List OptionScore :=
  @List.insertionSort OptionScore (fun a b => key b ≤ key a)
    (fun a b => inferInstanceAs (Decidable (key b ≤ key a))) l

/-- Deduplication keeping the first occurrence, in input order. Models the
`set(...)` of dimension names in `_generate_insights`; CPython's set
iteration order there is an implementation detail, and no property below
depends on the resulting string. -/
def dedupKeepFirst (seen : List String) : List String → List String
  | [] => []
  | a :: t => if seen.contains a then dedupKeepFirst seen t
              else a :: dedupKeepFirst (a :: seen) t

/-- Set equality of two name lists, as Python's `set(a) != set(b)` test. -/
def sameNameSet (a b : List String) : Bool :=
  a.all (fun x => b.contains x) && b.all (fun x => a.contains x)

/-- The `context` dict built by `KiroAgent._analyze_context` (three fixed
string keys). -/
structure KiroContext where
  primary_concern : String
  risk_tolerance : String
  decision_type : String
deriving DecidableEq

/-- `KiroAgent._analyze_context`. -/
def analyzeContext (constraints : Constraints) (use_case : String) : KiroContext :=
  let primary_concern :=
    if constraints.budget ≤ 3 then "cost"
    else if constraints.max_latency ≤ 3 then "performance"
    else if constraints.compliance = ComplianceLevel.hipaa ∨
            constraints.compliance = ComplianceLevel.pci ∨
            constraints.compliance = ComplianceLevel.gdpr then "compliance"
    else if constraints.team_skill = SkillLevel.beginner ∨
            constraints.team_skill = SkillLevel.intermediate then "team_capability"
    else "balanced"
  let use_case_lower := pyLower use_case
  let risk_tolerance :=
    if strContains use_case_lower "startup" || strContains use_case_lower "mvp" ||
       strContains use_case_lower "prototype" then "high"
    else if strContains use_case_lower "enterprise" || strContains use_case_lower "production" ||
            strContains use_case_lower "critical" then "low"
    else "medium"
  { primary_concern := primary_concern
    risk_tolerance := risk_tolerance
    decision_type := "technical" }

/-- `KiroAgent._generate_insights`. `scores[0]` / `scores[-1]` raise
`IndexError` on an empty list, hence the `Except`. -/
def generateInsights (scores : List OptionScore) (tradeoffs : List TradeOff) :
    Except String (List String) :=
  match scores with
  | [] => .error "IndexError: list index out of range"
  | s0 :: _ =>
    let top_score := s0.weighted_score
    let bottom_score := (scores.getLast?.getD s0).weighted_score
    let score_gap := top_score - bottom_score
    let gap_insight : List String :=
      if score_gap < 1 then
        ["All options are very close in overall scoring - decision factors beyond metrics may be important"]
      else if score_gap > 4 then
        ["Clear winner: " ++ s0.option_name ++ " significantly outperforms other options"]
      else []
    let high_impact_tradeoffs := tradeoffs.filter (fun t => t.impact == "high")
    let tradeoff_insight : List String :=
      if high_impact_tradeoffs.isEmpty then []
      else ["Critical trade-offs exist in: " ++
            String.intercalate ", " (dedupKeepFirst [] (high_impact_tradeoffs.map (fun t => t.dimension)))]
    let cost_leaders := (sortDescBy (fun s => s.cost_score) scores).take 2
    let perf_leaders :=
      (sortDescBy (fun s => (s.latency_score + s.scalability_score) / 2) scores).take 2
    let cost_perf_insight : List String :=
      if sameNameSet (cost_leaders.map (fun s => s.option_name))
           (perf_leaders.map (fun s => s.option_name)) then []
      else ["Classic cost vs performance trade-off - no option excels at both"]
    let compliance_max := scores.foldl (fun m s => max m s.compliance_score) s0.compliance_score
    let compliance_min := scores.foldl (fun m s => min m s.compliance_score) s0.compliance_score
    let compliance_insight : List String :=
      if compliance_max - compliance_min > 3 then
        ["Significant compliance differences between options - regulatory requirements are decisive"]
      else []
    .ok (gap_insight ++ tradeoff_insight ++ cost_perf_insight ++ compliance_insight)

/-- `KiroAgent._generate_recommendations`. The source's `top_3_options`
local is computed and never used; it is omitted. `scores[0]` in the final
recommendation raises `IndexError` on an empty list. -/
def generateRecommendations (options : List TechOption) (scores : List OptionScore)
    (context : KiroContext) : Except String (List String) :=
  match scores with
  | [] => .error "IndexError: list index out of range"
  | s0 :: srest =>
    let concern_recs : List String :=
      if context.primary_concern == "cost" then
        let cost_leader := pyMaxBy (fun s => s.cost_score) s0 srest
        ["For cost optimization: Choose " ++ cost_leader.option_name ++ " - best cost efficiency"] ++
        (match srest with
         | [] => []
         | s1 :: _ =>
           let balanced_option := if s0 ≠ cost_leader then s1 else s0
           ["For balanced approach: Consider " ++ balanced_option.option_name ++
            " - good cost with better features"])
      else if context.primary_concern == "performance" then
        let perf_leader :=
          pyMaxBy (fun s => (s.latency_score + s.scalability_score) / 2) s0 srest
        ["For maximum performance: Choose " ++ perf_leader.option_name ++
         " - superior speed and scale"] ++
        (match srest with
         | [] => []
         | _ :: _ =>
           let cost_conscious := pyMaxBy (fun s => s.cost_score) s0 srest
           if cost_conscious ≠ perf_leader then
             ["For performance on budget: Consider " ++ cost_conscious.option_name ++
              " - acceptable performance, lower cost"]
           else [])
      else if context.primary_concern == "compliance" then
        let compliance_leader := pyMaxBy (fun s => s.compliance_score) s0 srest
        ["For regulatory compliance: Choose " ++ compliance_leader.option_name ++
         " - meets all requirements"]
      else []
    let risk_recs : List String :=
      if context.risk_tolerance == "low" then
        let established_options := scores.filter (fun s =>
          options.any (fun o => o.name == s.option_name &&
            strContains (pyLower o.description) "enterprise"))
        match established_options with
        | [] => []
        | e0 :: _ => ["For low-risk deployment: " ++ e0.option_name ++
                      " - proven enterprise solution"]
      else []
    let final_rec : List String :=
      ["Choice depends on priorities: " ++ s0.option_name ++ " for overall balance, " ++
       (pyMaxBy (fun s => s.cost_score) s0 srest).option_name ++ " for cost, " ++
       (pyMaxBy (fun s => s.latency_score) s0 srest).option_name ++ " for performance"]
    .ok (concern_recs ++ risk_recs ++ final_rec)

/-- `KiroAgent._identify_risks` (pure: no indexing). -/
def identifyRisks (scores : List OptionScore) (tradeoffs : List TradeOff) : List String :=
  let score_risks := (scores.map (fun s =>
    (if s.cost_score < 4 then [s.option_name ++ ": High cost risk - may exceed budget"] else []) ++
    (if s.latency_score < 4 then
      [s.option_name ++ ": Performance risk - may not meet latency requirements"] else []) ++
    (if s.scalability_score < 4 then
      [s.option_name ++ ": Scalability risk - may not handle growth"] else []) ++
    (if s.compliance_score < 6 then
      [s.option_name ++ ": Compliance risk - may not meet regulatory requirements"] else []) ++
    (if s.skill_score < 5 then
      [s.option_name ++ ": Team capability risk - may require additional training"] else []))).flatten
  let tradeoff_risks := (tradeoffs.filter (fun t => t.impact == "high")).map (fun t =>
    "Choosing " ++ t.winner ++ " over alternatives sacrifices " ++ t.dimension ++ " performance")
  score_risks ++ tradeoff_risks

/-- `KiroAgent._map_scenarios`. `max` over an empty list raises
`ValueError`. -/
def mapScenarios (scores : List OptionScore) : Except String (List (String × String)) :=
  match scores with
  | [] => .error "ValueError: max() arg is an empty sequence"
  | s0 :: srest =>
    let cost_leader := pyMaxBy (fun s => s.cost_score) s0 srest
    let perf_leader := pyMaxBy (fun s => (s.latency_score + s.scalability_score) / 2) s0 srest
    let skill_leader := pyMaxBy (fun s => s.skill_score) s0 srest
    let compliance_leader := pyMaxBy (fun s => s.compliance_score) s0 srest
    let balanced_leader := pyMaxBy (fun s => s.weighted_score) s0 srest
    .ok [("tight_budget", cost_leader.option_name ++ " - most cost-effective option"),
         ("high_performance", perf_leader.option_name ++ " - best performance characteristics"),
         ("quick_deployment", skill_leader.option_name ++ " - matches current team skills"),
         ("enterprise_deployment", compliance_leader.option_name ++
          " - strongest compliance and governance"),
         ("startup_mvp", balanced_leader.option_name ++
          " - best overall balance for rapid iteration")]

/-- Decimal rendering of a two-decimal rational, modelling how Python's
f-string formats the (rounded) weighted score in the summary. No property
below depends on this string. -/
def floatRepr (q : ℚ) : String :=
  let sign := if q < 0 then "-" else ""
  let cents : ℤ := round (|q| * 100)
  let whole := cents / 100
  let frac := cents % 100
  let fracStr :=
    if frac == 0 then "0"
    else if frac % 10 == 0 then toString (frac / 10)
    else if frac < 10 then "0" ++ toString frac
    else toString frac
  sign ++ toString whole ++ "." ++ fracStr

/-- `KiroAgent._generate_summary` (`scores[0]` raises on empty). -/
def generateSummary (options : List TechOption) (scores : List OptionScore)
    (context : KiroContext) : Except String String :=
  match scores with
  | [] => .error "IndexError: list index out of range"
  | top_option :: _ =>
    let base := "Analyzed " ++ toString options.length ++ " technical options for your use case. "
    let concern :=
      if context.primary_concern == "cost" then
        "With cost as the primary concern, the analysis reveals significant trade-offs between price and capabilities. "
      else if context.primary_concern == "performance" then
        "Performance requirements drive this decision, with clear winners in latency and scalability. "
      else if context.primary_concern == "compliance" then
        "Regulatory compliance is the decisive factor, limiting viable options. "
      else ""
    .ok (base ++ concern ++ top_option.option_name ++
      " leads in overall scoring (weighted score: " ++ floatRepr top_option.weighted_score ++
      "), " ++ "but each option has distinct advantages depending on your specific priorities and constraints. " ++
      "The decision should align with your risk tolerance and long-term technical strategy.")

/-- `KiroAgent.analyze`: context, insights, recommendations, risks,
scenarios, summary — in source order. -/
def kiroAnalyze (options : List TechOption) (constraints : Constraints)
    (scores : List OptionScore) (tradeoffs : List TradeOff) (use_case : String) :
    Except String KiroAnalysis := do
  let context := analyzeContext constraints use_case
  let insights ← generateInsights scores tradeoffs
  let recommendations ← generateRecommendations options scores context
  let risks := identifyRisks scores tradeoffs
  let scenarios ← mapScenarios scores
  let summary ← generateSummary options scores context
  .ok { summary := summary
        key_insights := insights
        recommendations := recommendations
        risk_factors := risks
        best_for_scenarios := scenarios }

/-- `DecisionEngine.validate_request`: raises `ValueError` (never invoked by
`DecisionEngine.compare` or by the `/compare` endpoint in `main.py`). -/
def validateRequest (request : ComparisonRequest) : Except String Unit :=
  if request.options.length < 2 then
    .error "At least 2 options are required for comparison"
  else if pyStrip request.use_case = "" then
    .error "Use case description is required"
  else .ok ()

/-- `DecisionEngine.compare`: scoring, then trade-offs, then Kiro analysis.
No validation is performed here. -/
def decisionCompare (request : ComparisonRequest) : Except String ComparisonResult := do
  let scores := scoreOptions request.options request.constraints
  let tradeoffs ← generateTradeoffs request.options scores
  let kiro_analysis ← kiroAnalyze request.options request.constraints scores tradeoffs
    request.use_case
  .ok { comparison_id := .none
        scores := scores
        tradeoffs := tradeoffs
        kiro_analysis := kiro_analysis
        timestamp := .none }

/-- Observable outcome of the `/compare` endpoint: HTTP status and whether
`db.store_comparison` was invoked. -/
structure CompareOutcome where
  status : Nat
  storeCalled : Bool
deriving DecidableEq

/-- `main.compare_options` (the `POST /compare` handler): runs
`decision_engine.compare` and, on success, stores the result via
`db.store_comparison` (modelled as an always-successful external
collaborator) before returning it; any exception becomes an HTTP 500.
The handler performs no request validation. -/
def compareEndpoint (request : ComparisonRequest) : CompareOutcome :=
  match decisionCompare request with
  | .ok _ => { status := 200, storeCalled := true }
  | .error _ => { status := 500, storeCalled := false }

/-- A stored row of the `comparisons` table, as returned by
`db.get_comparison` when present. -/
structure StoredRecord where
  request_data : String
  result_data : String
  use_case : String
  timestamp : String
deriving DecidableEq

/-- A Python exception value raised inside the `GET /comparisons/{id}`
handler's `try` block. -/
inductive PyExc where
  | http (status : Nat) (detail : String)
deriving DecidableEq

/-- `str(e)` for an `HTTPException`, as interpolated into the 500 detail. -/
def excMessage : PyExc → String
  | .http s d => toString s ++ ": " ++ d

/-- An HTTP response of the retrieval endpoint. -/
structure HttpResponse where
  status : Nat
  detail : String
deriving DecidableEq

/-- `db.get_comparison`: `None` when no row matches the id; the store is
modelled as a map from id to the stored row. -/
def dbGetComparison (store : String → Option StoredRecord) (comparison_id : String) :
    Option StoredRecord :=
  store comparison_id

/-- The `try` block of `main.get_comparison`: fetch, and raise
`HTTPException(404)` when the result is falsy. -/
def getComparisonBody (store : String → Option StoredRecord) (comparison_id : String) :
    Except PyExc StoredRecord :=
  match dbGetComparison store comparison_id with
  | .none => .error (.http 404 "Comparison not found")
  | .some r => .ok r

/-- `main.get_comparison` (the `GET /comparisons/{comparison_id}` handler).
Its `except Exception` clause catches every exception raised in the `try`
block — including the `HTTPException(404)` raised for a missing id, since
FastAPI's `HTTPException` subclasses `Exception` — and re-raises it as an
HTTP 500. -/
def getComparisonEndpoint (store : String → Option StoredRecord) (comparison_id : String) :
    HttpResponse :=
  match getComparisonBody store comparison_id with
  | .ok _ => { status := 200, detail := "" }
  | .error e => { status := 500, detail := excMessage e }

/-- The six scoring dimensions, in the fixed order of
`TradeOffGenerator.__init__`'s `self.dimensions` list. -/
inductive Dimension where
  | cost
  | latency
  | scalability
  | compliance
  | cloud
  | skill
deriving DecidableEq, Fintype

/-- The dimension's name string, as used in emitted `TradeOff` records. -/
def dimName : Dimension → String
  | .cost => "cost"
  | .latency => "latency"
  | .scalability => "scalability"
  | .compliance => "compliance"
  | .cloud => "cloud"
  | .skill => "skill"

/-- The per-dimension score field of an `OptionScore`. -/
def dimScore : Dimension → OptionScore → ℚ
  | .cost, s => s.cost_score
  | .latency, s => s.latency_score
  | .scalability, s => s.scalability_score
  | .compliance, s => s.compliance_score
  | .cloud, s => s.cloud_score
  | .skill, s => s.skill_score

/-- The per-dimension explanation template of
`TradeOffGenerator._compare_options` (winner first, loser second). -/
def dimExplanation : Dimension → String → String → String
  | .cost => fun w l => w ++ " is more cost-effective than " ++ l
  | .latency => fun w l => w ++ " offers better latency performance than " ++ l
  | .scalability => fun w l => w ++ " scales better than " ++ l
  | .compliance => fun w l => w ++ " better meets compliance requirements than " ++ l
  | .cloud => fun w l => w ++ " better aligns with cloud preferences than " ++ l
  | .skill => fun w l => w ++ " better matches team skill level than " ++ l

/-- The fixed dimension order (`self.dimensions` in the source). -/
def allDimensions : List Dimension :=
  [.cost, .latency, .scalability, .compliance, .cloud, .skill]

/-- Fixture: a concrete option realising the worked example of the spec
(cost 2, latency 2, scalability 9). -/
def sampleOptionA : TechOption :=
  { name := "A"
    description := "a tool"
    cost := 2
    latency := 2
    scalability := 9
    compliance := .soc2
    cloud := .aws
    team_skill_required := .beginner
    pros := []
    cons := [] }

/-- Fixture: a second concrete option. -/
def sampleOptionB : TechOption :=
  { name := "B"
    description := "b tool"
    cost := 9
    latency := 8
    scalability := 3
    compliance := .none
    cloud := .gcp
    team_skill_required := .expert
    pros := []
    cons := [] }

/-- Fixture: the worked example's constraints (budget 8, max latency 8,
required scale 5), with balanced budget/latency and an advanced team — so
`_analyze_context` produces the "balanced" primary concern. -/
def sampleConstraints : Constraints :=
  { budget := 8
    max_latency := 8
    required_scale := 5
    compliance := .soc2
    preferred_cloud := some .aws
    team_skill := .advanced }

/-- Fixture: a request with a single option and a non-blank use case. -/
def oneOptionRequest : ComparisonRequest :=
  { options := [sampleOptionA]
    constraints := sampleConstraints
    use_case := "internal tool"
    description := .none }

/-- Fixture: a two-option request whose use-case text is whitespace only. -/
def blankUseCaseRequest : ComparisonRequest :=
  { options := [sampleOptionA, sampleOptionB]
    constraints := sampleConstraints
    use_case := "   "
    description := .none }

/-- Fixture: a well-formed two-option request with balanced constraints and
a keyword-free use case. -/
def twoOptionRequest : ComparisonRequest :=
  { options := [sampleOptionA, sampleOptionB]
    constraints := sampleConstraints
    use_case := "internal web app"
    description := .none }

/-- Fixture: the scalability trade-off emitted for the sample pair. -/
def sampleScalabilityTradeoff : TradeOff :=
  { option_a := "A"
    option_b := "B"
    dimension := "scalability"
    winner := "A"
    explanation := "A scales better than B"
    impact := "high" }

/-- Fixture: the trade-off list produced by `generate_tradeoffs` on the
scored sample options. -/
def sampleRunTradeoffs : List TradeOff :=
  [sampleScalabilityTradeoff,
   { option_a := "A"
     option_b := "B"
     dimension := "compliance"
     winner := "A"
     explanation := "A better meets compliance requirements than B"
     impact := "high" },
   { option_a := "A"
     option_b := "B"
     dimension := "cloud"
     winner := "A"
     explanation := "A better aligns with cloud preferences than B"
     impact := "high" },
   { option_a := "A"
     option_b := "B"
     dimension := "skill"
     winner := "A"
     explanation := "A better matches team skill level than B"
     impact := "medium" }]

section MainTheorems

/- Batteries marks the `Rat` field operations `@[irreducible]`; the kernel
ignores reducibility, and making them locally semireducible lets `decide`
and `rfl` evaluate concrete scores during elaboration as well. -/
attribute [local semireducible] Rat.add Rat.mul Rat.inv Rat.sub Rat.ofScientific

/-- C1: the claim says an orchestrated comparison with fewer than 2 options,
or with whitespace-only use-case text, fails with a `ValidationError` before
scoring and before any store write. In the code, `validate_request` would
indeed reject both requests, but neither `DecisionEngine.compare` nor the
`/compare` handler ever invokes it: both requests are scored end to end,
stored, and answered with HTTP 200. -/
theorem compare_endpoint_skips_validation_and_stores :
    validateRequest oneOptionRequest =
      Except.error "At least 2 options are required for comparison" ∧
    compareEndpoint oneOptionRequest = { status := 200, storeCalled := true } ∧
    validateRequest blankUseCaseRequest =
      Except.error "Use case description is required" ∧
    compareEndpoint blankUseCaseRequest = { status := 200, storeCalled := true } := by
  refine ⟨rfl, by decide, rfl, by decide⟩

/-- C2 counterexample: on the worked example (cost 2 vs budget 8, latency 2
vs max latency 8, scalability 9 vs required scale 5) the reported
scalability score is not 9.6 as the claim asserts. -/
theorem scalability_example_ne_nine_point_six :
    (scoreSingleOption sampleOptionA sampleConstraints).scalability_score ≠ 96 / 10 := by
  decide

/-- C2 (amended): the same example yields `cost_score = 10`,
`latency_score = 10`, and `scalability_score = min(10, 8 + min(2, 4/5))`,
which evaluates to 8.8 (not 9.6). -/
theorem scalability_example_scores :
    (scoreSingleOption sampleOptionA sampleConstraints).cost_score = 10 ∧
    (scoreSingleOption sampleOptionA sampleConstraints).latency_score = 10 ∧
    (scoreSingleOption sampleOptionA sampleConstraints).scalability_score =
      min 10 (8 + min 2 (4 / 5)) ∧
    min (10 : ℚ) (8 + min 2 (4 / 5)) = 88 / 10 := by
  refine ⟨by decide, by decide, by decide, by decide⟩

/-- C3: for every option and constraint profile, the reported
`weighted_score` is the fixed-weight combination
cost·0.25 + latency·0.20 + scalability·0.20 + compliance·0.15 +
cloud·0.10 + skill·0.10 of the six *unrounded* dimension scores, rounded to
2 decimals afterwards; the weights sum to 1. -/
theorem weighted_score_convex_combination (o : TechOption) (c : Constraints) :
    (scoreSingleOption o c).weighted_score =
      round2 (scoreCost o.cost c.budget * 0.25 +
        scoreLatency o.latency c.max_latency * 0.20 +
        scoreScalability o.scalability c.required_scale * 0.20 +
        scoreCompliance o.compliance c.compliance * 0.15 +
        scoreCloud o.cloud c.preferred_cloud * 0.10 +
        scoreSkill o.team_skill_required c.team_skill * 0.10) ∧
    (0.25 + 0.20 + 0.20 + 0.15 + 0.10 + 0.10 : ℚ) = 1 := by
  exact ⟨rfl, by norm_num⟩

/-- C7: the reported skill score is 10 whenever the team's rank (beginner=1
… expert=4) is at least the option's required rank, and
max(0, 10 − 3·(required − team)) otherwise — the gap penalty applies
exactly when the team's skill is below the option's required skill. -/
theorem skill_score_matches_documented_intent (o : TechOption) (c : Constraints) :
    (scoreSingleOption o c).skill_score =
      round2 (if skillLevels o.team_skill_required ≤ skillLevels c.team_skill then 10
        else max 0 (10 - 3 * ((skillLevels o.team_skill_required : ℚ) -
          (skillLevels c.team_skill : ℚ)))) := by
  have h : ∀ r t : SkillLevel, scoreSkill r t =
      (if skillLevels r ≤ skillLevels t then (10 : ℚ)
       else max 0 (10 - 3 * ((skillLevels r : ℚ) - (skillLevels t : ℚ)))) := by decide
  calc (scoreSingleOption o c).skill_score
      = round2 (scoreSkill o.team_skill_required c.team_skill) := rfl
    _ = _ := congrArg round2 (h o.team_skill_required c.team_skill)

/-- C8: the claim says the narrative analysis always returns at least 2
recommendations for a comparison over ≥2 options. On a two-option request
with balanced constraints (no cost, performance, compliance or
team-capability concern, medium risk tolerance) every concern branch of
`_generate_recommendations` is skipped and only the final
"depends on priorities" string is appended: exactly one recommendation,
contradicting the source's own comment "Always provide multiple
recommendations, never just one". -/
theorem two_option_comparison_single_recommendation :
    twoOptionRequest.options.length = 2 ∧
    (decisionCompare twoOptionRequest).toOption.map
      (fun r => r.kiro_analysis.recommendations.length) = some 1 := by
  exact ⟨rfl, by decide⟩

/-- C9: the claim says retrieval by an absent id yields a distinct not-found
outcome (404). In the code, the `HTTPException(404)` raised inside the `try`
block is caught by the handler's own `except Exception` clause and re-raised
as a 500, so an absent id is answered with 500 and no request can ever be
answered with 404. -/
theorem missing_comparison_returns_500_not_404 :
    (getComparisonEndpoint (fun _ => Option.none) "missing-id").status = 500 ∧
    ∀ (store : String → Option StoredRecord) (comparison_id : String),
      (getComparisonEndpoint store comparison_id).status ≠ 404 := by
  constructor
  · rfl
  · intro store comparison_id
    unfold getComparisonEndpoint
    cases getComparisonBody store comparison_id <;> simp

/-- Rounding to two decimals preserves the `[0, 10]` band. -/
lemma round2_bounds {q : ℚ} (h0 : 0 ≤ q) (h10 : q ≤ 10) :
    0 ≤ round2 q ∧ round2 q ≤ 10 := by
  have habs := abs_sub_round (q * 100)
  rw [abs_le] at habs
  obtain ⟨hl, hr⟩ := habs
  have hc1 : ((-1 : ℤ) : ℚ) < ((round (q * 100) : ℤ) : ℚ) := by push_cast; linarith
  have hc2 : ((round (q * 100) : ℤ) : ℚ) < ((1001 : ℤ) : ℚ) := by push_cast; linarith
  have hz1 : (0 : ℤ) ≤ round (q * 100) := by
    have h : (-1 : ℤ) < round (q * 100) := by exact_mod_cast hc1
    omega
  have hz2 : round (q * 100) ≤ 1000 := by
    have h : round (q * 100) < (1001 : ℤ) := by exact_mod_cast hc2
    omega
  unfold round2
  constructor
  · exact div_nonneg (by exact_mod_cast hz1) (by norm_num)
  · rw [div_le_iff₀ (by norm_num : (0 : ℚ) < 100)]
    calc ((round (q * 100) : ℤ) : ℚ) ≤ ((1000 : ℤ) : ℚ) := by exact_mod_cast hz2
      _ = 10 * 100 := by norm_num

/-- The raw cost score lies in `[0, 10]` for any positive budget. -/
lemma scoreCost_bounds (cost budget : ℚ) (hb : 0 < budget) :
    0 ≤ scoreCost cost budget ∧ scoreCost cost budget ≤ 10 := by
  unfold scoreCost
  split_ifs with h
  · norm_num
  · push_neg at h
    have hp : 0 ≤ (cost - budget) / budget := div_nonneg (by linarith) hb.le
    refine ⟨le_max_left _ _, max_le (by norm_num) (by nlinarith)⟩

/-- The raw latency score lies in `[0, 10]` for any positive latency
ceiling. -/
lemma scoreLatency_bounds (lat cap : ℚ) (hc : 0 < cap) :
    0 ≤ scoreLatency lat cap ∧ scoreLatency lat cap ≤ 10 := by
  unfold scoreLatency
  split_ifs with h
  · norm_num
  · push_neg at h
    have hp : 0 ≤ (lat - cap) / cap := div_nonneg (by linarith) hc.le
    refine ⟨le_max_left _ _, max_le (by norm_num) (by nlinarith)⟩

/-- The raw scalability score lies in `[0, 10]` for any positive required
scale. -/
lemma scoreScalability_bounds (s r : ℚ) (hr : 0 < r) :
    0 ≤ scoreScalability s r ∧ scoreScalability s r ≤ 10 := by
  unfold scoreScalability
  split_ifs with h
  · have hb : 0 ≤ (s - r) / r := div_nonneg (by linarith) hr.le
    have hm : (0 : ℚ) ≤ min 2 ((s - r) / r) := le_min (by norm_num) hb
    exact ⟨le_min (by norm_num) (by linarith), min_le_left _ _⟩
  · push_neg at h
    have hp : 0 ≤ (r - s) / r := div_nonneg (by linarith) hr.le
    refine ⟨le_max_left _ _, max_le (by norm_num) (by nlinarith)⟩

/-- The compliance score lies in `[0, 10]` for every tier pair. -/
lemma scoreCompliance_bounds :
    ∀ a b : ComplianceLevel, 0 ≤ scoreCompliance a b ∧ scoreCompliance a b ≤ 10 := by
  decide

/-- The cloud score lies in `[0, 10]` for every provider/preference pair. -/
lemma scoreCloud_bounds :
    ∀ (a : CloudProvider) (b : Option CloudProvider),
      0 ≤ scoreCloud a b ∧ scoreCloud a b ≤ 10 := by
  decide

/-- The skill score lies in `[0, 10]` for every skill pair. -/
lemma scoreSkill_bounds :
    ∀ a b : SkillLevel, 0 ≤ scoreSkill a b ∧ scoreSkill a b ≤ 10 := by
  decide

/-- C4: for every option and constraint profile whose numeric attributes lie
on the documented 1-10 scale, each of the six reported per-dimension scores
lies in `[0, 10]`. -/
theorem dimension_scores_within_bounds (o : TechOption) (c : Constraints)
    (hb1 : 1 ≤ c.budget) (hb2 : c.budget ≤ 10)
    (hm1 : 1 ≤ c.max_latency) (hm2 : c.max_latency ≤ 10)
    (hr1 : 1 ≤ c.required_scale) (hr2 : c.required_scale ≤ 10)
    (hc1 : 1 ≤ o.cost) (hc2 : o.cost ≤ 10)
    (hl1 : 1 ≤ o.latency) (hl2 : o.latency ≤ 10)
    (hs1 : 1 ≤ o.scalability) (hs2 : o.scalability ≤ 10) :
    (0 ≤ (scoreSingleOption o c).cost_score ∧ (scoreSingleOption o c).cost_score ≤ 10) ∧
    (0 ≤ (scoreSingleOption o c).latency_score ∧ (scoreSingleOption o c).latency_score ≤ 10) ∧
    (0 ≤ (scoreSingleOption o c).scalability_score ∧
      (scoreSingleOption o c).scalability_score ≤ 10) ∧
    (0 ≤ (scoreSingleOption o c).compliance_score ∧
      (scoreSingleOption o c).compliance_score ≤ 10) ∧
    (0 ≤ (scoreSingleOption o c).cloud_score ∧ (scoreSingleOption o c).cloud_score ≤ 10) ∧
    (0 ≤ (scoreSingleOption o c).skill_score ∧ (scoreSingleOption o c).skill_score ≤ 10) := by
  have kc := scoreCost_bounds o.cost c.budget (by linarith)
  have kl := scoreLatency_bounds o.latency c.max_latency (by linarith)
  have ks := scoreScalability_bounds o.scalability c.required_scale (by linarith)
  have kp := scoreCompliance_bounds o.compliance c.compliance
  have ku := scoreCloud_bounds o.cloud c.preferred_cloud
  have kk := scoreSkill_bounds o.team_skill_required c.team_skill
  exact ⟨round2_bounds kc.1 kc.2, round2_bounds kl.1 kl.2, round2_bounds ks.1 ks.2,
    round2_bounds kp.1 kp.2, round2_bounds ku.1 ku.2, round2_bounds kk.1 kk.2⟩

/-- Witness for C4 at the sample option and constraints. -/
theorem dimension_scores_within_bounds_witness :
    (0 ≤ (scoreSingleOption sampleOptionA sampleConstraints).cost_score ∧
      (scoreSingleOption sampleOptionA sampleConstraints).cost_score ≤ 10) ∧
    (0 ≤ (scoreSingleOption sampleOptionA sampleConstraints).latency_score ∧
      (scoreSingleOption sampleOptionA sampleConstraints).latency_score ≤ 10) ∧
    (0 ≤ (scoreSingleOption sampleOptionA sampleConstraints).scalability_score ∧
      (scoreSingleOption sampleOptionA sampleConstraints).scalability_score ≤ 10) ∧
    (0 ≤ (scoreSingleOption sampleOptionA sampleConstraints).compliance_score ∧
      (scoreSingleOption sampleOptionA sampleConstraints).compliance_score ≤ 10) ∧
    (0 ≤ (scoreSingleOption sampleOptionA sampleConstraints).cloud_score ∧
      (scoreSingleOption sampleOptionA sampleConstraints).cloud_score ≤ 10) ∧
    (0 ≤ (scoreSingleOption sampleOptionA sampleConstraints).skill_score ∧
      (scoreSingleOption sampleOptionA sampleConstraints).skill_score ≤ 10) :=
  dimension_scores_within_bounds sampleOptionA sampleConstraints
    (by decide) (by decide) (by decide) (by decide) (by decide) (by decide)
    (by decide) (by decide) (by decide) (by decide) (by decide) (by decide)

/-- Inserting an element whose weighted score equals `w` commutes with
filtering on that score: skipped elements have strictly greater score. -/
lemma filter_orderedInsert_of_key_eq (w : ℚ) (a : OptionScore) (l : List OptionScore)
    (h : a.weighted_score = w) :
    (List.orderedInsert wsGe a l).filter (fun s => decide (s.weighted_score = w)) =
      a :: l.filter (fun s => decide (s.weighted_score = w)) := by
  induction l with
  | nil => simp [List.orderedInsert, h]
  | cons b t ih =>
    rw [List.orderedInsert]
    split_ifs with hr
    · simp [List.filter_cons, h]
    · have hab : a.weighted_score < b.weighted_score := by
        unfold wsGe at hr
        exact lt_of_not_le hr
      have hb : ¬ b.weighted_score = w := fun hbw => absurd (h ▸ hab) (hbw ▸ lt_irrefl w)
      simp [List.filter_cons, hb, ih]

/-- Inserting an element whose weighted score differs from `w` leaves the
filter on that score unchanged. -/
lemma filter_orderedInsert_of_key_ne (w : ℚ) (a : OptionScore) (l : List OptionScore)
    (h : ¬ a.weighted_score = w) :
    (List.orderedInsert wsGe a l).filter (fun s => decide (s.weighted_score = w)) =
      l.filter (fun s => decide (s.weighted_score = w)) := by
  induction l with
  | nil => simp [List.orderedInsert, h]
  | cons b t ih =>
    rw [List.orderedInsert]
    split_ifs with hr
    · simp [List.filter_cons, h]
    · simp [List.filter_cons, ih]

/-- Stability of the insertion sort used by `score_options`: for every
weighted-score value, filtering the sorted output gives exactly the
same-score elements in input order. -/
lemma filter_insertionSort_wsGe (w : ℚ) (l : List OptionScore) :
    (List.insertionSort wsGe l).filter (fun s => decide (s.weighted_score = w)) =
      l.filter (fun s => decide (s.weighted_score = w)) := by
  induction l with
  | nil => rfl
  | cons a t ih =>
    rw [List.insertionSort]
    by_cases h : a.weighted_score = w
    · rw [filter_orderedInsert_of_key_eq w a _ h, ih, List.filter_cons]
      simp [h]
    · rw [filter_orderedInsert_of_key_ne w a _ h, ih, List.filter_cons]
      simp [h]

/-- C5: for every non-empty options list, `score_options` returns a
permutation of the per-option scores that is pairwise non-increasing in
`weighted_score`, and options with equal weighted score keep their input
order (stable sort, expressed by commuting with the per-value filter). -/
theorem score_options_sorted_descending_stable (options : List TechOption)
    (c : Constraints) (hne : options ≠ []) :
    List.Sorted wsGe (scoreOptions options c) ∧
    (scoreOptions options c).Perm (options.map (fun o => scoreSingleOption o c)) ∧
    ∀ w : ℚ, (scoreOptions options c).filter (fun s => decide (s.weighted_score = w)) =
      (options.map (fun o => scoreSingleOption o c)).filter
        (fun s => decide (s.weighted_score = w)) :=
  ⟨List.sorted_insertionSort wsGe _, List.perm_insertionSort wsGe _,
    fun w => filter_insertionSort_wsGe w _⟩

/-- Witness for C5 on the two sample options. -/
theorem score_options_sorted_descending_stable_witness :
    List.Sorted wsGe (scoreOptions [sampleOptionA, sampleOptionB] sampleConstraints) ∧
    (scoreOptions [sampleOptionA, sampleOptionB] sampleConstraints).Perm
      ([sampleOptionA, sampleOptionB].map (fun o => scoreSingleOption o sampleConstraints)) ∧
    ∀ w : ℚ, (scoreOptions [sampleOptionA, sampleOptionB] sampleConstraints).filter
        (fun s => decide (s.weighted_score = w)) =
      ([sampleOptionA, sampleOptionB].map (fun o => scoreSingleOption o sampleConstraints)).filter
        (fun s => decide (s.weighted_score = w)) :=
  score_options_sorted_descending_stable [sampleOptionA, sampleOptionB] sampleConstraints
    (by decide)

/-- Membership in one dimension block of `_compare_options`: an element
exists exactly when the absolute score gap exceeds 1, and it is the fully
determined record. -/
lemma mem_tradeoffBlock {t : TradeOff} {dim : String} {expl : String → String → String}
    {va vb : ℚ} {a b : TechOption} :
    t ∈ tradeoffBlock dim expl va vb a b ↔
      1 < |va - vb| ∧
      t = { option_a := a.name
            option_b := b.name
            dimension := dim
            winner := if va > vb then a.name else b.name
            explanation := expl (if va > vb then a.name else b.name)
              (if (if va > vb then a.name else b.name) = a.name then b.name else a.name)
            impact := calculateImpact |va - vb| } := by
  unfold tradeoffBlock
  by_cases h : |va - vb| > 1
  · rw [if_pos h]
    simp only [List.mem_singleton]
    exact ⟨fun ht => ⟨h, ht⟩, fun ht => ht.2⟩
  · rw [if_neg h]
    simp only [List.not_mem_nil, false_iff, not_and]
    intro hgt
    exact absurd hgt h

/-- Everything the source guarantees about a single emitted trade-off:
its endpoints, dimension, gap, winner and impact classification. -/
lemma tradeoffBlock_spec {t : TradeOff} {dim : String} {expl : String → String → String}
    {va vb : ℚ} {a b : TechOption} (ht : t ∈ tradeoffBlock dim expl va vb a b) :
    t.dimension = dim ∧ t.option_a = a.name ∧ t.option_b = b.name ∧
    1 < |va - vb| ∧
    (t.winner = a.name ∨ t.winner = b.name) ∧
    (vb < va → t.winner = a.name) ∧ (va < vb → t.winner = b.name) ∧
    (t.impact = "high" ↔ 4 ≤ |va - vb|) ∧
    (t.impact = "medium" ↔ 2 ≤ |va - vb| ∧ |va - vb| < 4) ∧
    (t.impact = "low" ↔ 1 < |va - vb| ∧ |va - vb| < 2) := by
  obtain ⟨hgt, rfl⟩ := mem_tradeoffBlock.mp ht
  refine ⟨rfl, rfl, rfl, hgt, ?_, ?_, ?_, ?_, ?_, ?_⟩
  · by_cases hw : va > vb
    · exact Or.inl (by simp [hw])
    · exact Or.inr (by simp [hw])
  · intro hlt
    simp [hlt]
  · intro hlt
    simp [not_lt.mpr hlt.le]
  · show calculateImpact |va - vb| = "high" ↔ 4 ≤ |va - vb|
    unfold calculateImpact
    split_ifs with h4 h2 <;> simp_all
  · show calculateImpact |va - vb| = "medium" ↔ 2 ≤ |va - vb| ∧ |va - vb| < 4
    unfold calculateImpact
    split_ifs with h4 h2 <;> simp_all <;> try linarith
  · show calculateImpact |va - vb| = "low" ↔ 1 < |va - vb| ∧ |va - vb| < 2
    unfold calculateImpact
    split_ifs with h4 h2 <;> simp_all <;> try linarith

/-- Every dimension is in the fixed iteration list. -/
lemma mem_allDimensions (d : Dimension) : d ∈ allDimensions := by
  cases d <;> simp [allDimensions]

/-- Distinct dimensions carry distinct name strings. -/
lemma dimName_injective : ∀ d1 d2 : Dimension, dimName d1 = dimName d2 → d1 = d2 := by
  decide

/-- `_compare_options` is the concatenation of the six dimension blocks,
taken over `allDimensions` in order. -/
lemma compareOptionsPair_eq_flatten (a b : TechOption) (sa sb : OptionScore) :
    compareOptionsPair a b sa sb =
      (allDimensions.map (fun d =>
        tradeoffBlock (dimName d) (dimExplanation d) (dimScore d sa) (dimScore d sb) a b)).flatten := by
  simp [compareOptionsPair, allDimensions, dimName, dimScore, dimExplanation,
    List.append_assoc]

/-- Membership in the pair comparison, dimensionwise. -/
lemma mem_compareOptionsPair {t : TradeOff} {a b : TechOption} {sa sb : OptionScore} :
    t ∈ compareOptionsPair a b sa sb ↔
      ∃ d : Dimension,
        t ∈ tradeoffBlock (dimName d) (dimExplanation d) (dimScore d sa) (dimScore d sb) a b := by
  rw [compareOptionsPair_eq_flatten, List.mem_flatten]
  constructor
  · rintro ⟨s, hs, hts⟩
    obtain ⟨d, -, rfl⟩ := List.mem_map.mp hs
    exact ⟨d, hts⟩
  · rintro ⟨d, htd⟩
    exact ⟨_, List.mem_map.mpr ⟨d, mem_allDimensions d, rfl⟩, htd⟩

/-- C6: for every option pair, score pair and dimension, `_compare_options`
emits a trade-off on that dimension exactly when the absolute score gap
exceeds 1.0; the winner is the option with the higher score, and the impact
is `high` iff the gap is ≥ 4, `medium` iff it is in `[2, 4)`, and `low` iff
it is in `(1, 2)`. -/
theorem pair_tradeoff_emission_winner_impact (a b : TechOption) (sa sb : OptionScore)
    (d : Dimension) :
    ((∃ t ∈ compareOptionsPair a b sa sb, t.dimension = dimName d) ↔
      1 < |dimScore d sa - dimScore d sb|) ∧
    ∀ t ∈ compareOptionsPair a b sa sb, t.dimension = dimName d →
      (dimScore d sb < dimScore d sa → t.winner = a.name) ∧
      (dimScore d sa < dimScore d sb → t.winner = b.name) ∧
      (t.impact = "high" ↔ 4 ≤ |dimScore d sa - dimScore d sb|) ∧
      (t.impact = "medium" ↔
        2 ≤ |dimScore d sa - dimScore d sb| ∧ |dimScore d sa - dimScore d sb| < 4) ∧
      (t.impact = "low" ↔
        1 < |dimScore d sa - dimScore d sb| ∧ |dimScore d sa - dimScore d sb| < 2) := by
  constructor
  · constructor
    · rintro ⟨t, ht, hdim⟩
      obtain ⟨d', ht'⟩ := mem_compareOptionsPair.mp ht
      obtain ⟨hd', -, -, hgt, -⟩ := tradeoffBlock_spec ht'
      have hdd : d' = d := dimName_injective d' d (by rw [← hd', hdim])
      rwa [hdd] at hgt
    · intro hgt
      exact ⟨_, mem_compareOptionsPair.mpr ⟨d, mem_tradeoffBlock.mpr ⟨hgt, rfl⟩⟩, rfl⟩
  · intro t ht hdim
    obtain ⟨d', ht'⟩ := mem_compareOptionsPair.mp ht
    have hdd : d' = d := by
      obtain ⟨hd', -⟩ := tradeoffBlock_spec ht'
      exact dimName_injective d' d (by rw [← hd', hdim])
    subst hdd
    obtain ⟨-, -, -, -, -, hw1, hw2, hi1, hi2, hi3⟩ := tradeoffBlock_spec ht'
    exact ⟨hw1, hw2, hi1, hi2, hi3⟩

/-- Witness for C6: on the sample pair, a scalability trade-off is emitted
because the gap exceeds 1. -/
theorem pair_tradeoff_emission_winner_impact_witness :
    ∃ t ∈ compareOptionsPair sampleOptionA sampleOptionB
        (scoreSingleOption sampleOptionA sampleConstraints)
        (scoreSingleOption sampleOptionB sampleConstraints),
      t.dimension = dimName Dimension.scalability :=
  (pair_tradeoff_emission_winner_impact sampleOptionA sampleOptionB
      (scoreSingleOption sampleOptionA sampleConstraints)
      (scoreSingleOption sampleOptionB sampleConstraints)
      Dimension.scalability).1.mpr (by decide)

/-- Every trade-off of one inner-loop pass pairs `option_a` with some later
option `ob`, and its winner is one of its own two endpoints. -/
lemma generateTradeoffsInner_mem {scores : List OptionScore} {option_a : TechOption}
    {rest : List TechOption} {l : List TradeOff}
    (h : generateTradeoffsInner scores option_a rest = .ok l) :
    ∀ t ∈ l, ∃ (j : ℕ) (ob : TechOption), rest[j]? = some ob ∧
      t.option_a = option_a.name ∧ t.option_b = ob.name ∧
      (t.winner = t.option_a ∨ t.winner = t.option_b) := by
  induction rest generalizing l with
  | nil =>
    rw [generateTradeoffsInner] at h
    cases h
    intro t ht
    exact absurd ht (List.not_mem_nil t)
  | cons option_b rest ih =>
    rw [generateTradeoffsInner] at h
    cases hsa : lookupScore scores option_a.name with
    | error e => rw [hsa] at h; exact absurd h (by simp)
    | ok score_a =>
      rw [hsa] at h
      cases hsb : lookupScore scores option_b.name with
      | error e => rw [hsb] at h; exact absurd h (by simp)
      | ok score_b =>
        rw [hsb] at h
        cases hmore : generateTradeoffsInner scores option_a rest with
        | error e => rw [hmore] at h; exact absurd h (by simp)
        | ok more =>
          rw [hmore] at h
          simp only [Except.ok.injEq] at h
          subst h
          intro t ht
          rcases List.mem_append.mp ht with hpair | hmore2
          · obtain ⟨-, h1, h2, -, hw, -⟩ :=
              tradeoffBlock_spec ((mem_compareOptionsPair.mp hpair).choose_spec)
            refine ⟨0, option_b, by simp, h1, h2, ?_⟩
            rcases hw with hw | hw
            · exact Or.inl (hw.trans h1.symm)
            · exact Or.inr (hw.trans h2.symm)
          · obtain ⟨j, ob, hj, h1, h2, hw⟩ := ih hmore t hmore2
            exact ⟨j + 1, ob, by simpa using hj, h1, h2, hw⟩

/-- Every trade-off of the outer loop pairs an earlier option with a
strictly later one, in input order. -/
lemma generateTradeoffsAux_mem {scores : List OptionScore} {opts : List TechOption}
    {l : List TradeOff} (h : generateTradeoffsAux scores opts = .ok l) :
    ∀ t ∈ l, ∃ (i j : ℕ) (oa ob : TechOption), i < j ∧
      opts[i]? = some oa ∧ opts[j]? = some ob ∧
      t.option_a = oa.name ∧ t.option_b = ob.name ∧
      (t.winner = t.option_a ∨ t.winner = t.option_b) := by
  induction opts generalizing l with
  | nil =>
    rw [generateTradeoffsAux] at h
    cases h
    intro t ht
    exact absurd ht (List.not_mem_nil t)
  | cons option_a rest ih =>
    rw [generateTradeoffsAux] at h
    cases hhere : generateTradeoffsInner scores option_a rest with
    | error e => rw [hhere] at h; exact absurd h (by simp)
    | ok here =>
      rw [hhere] at h
      cases htail : generateTradeoffsAux scores rest with
      | error e => rw [htail] at h; exact absurd h (by simp)
      | ok tail =>
        rw [htail] at h
        simp only [Except.ok.injEq] at h
        subst h
        intro t ht
        rcases List.mem_append.mp ht with hh | ht2
        · obtain ⟨j, ob, hj, h1, h2, hw⟩ := generateTradeoffsInner_mem hhere t hh
          exact ⟨0, j + 1, option_a, ob, Nat.succ_pos j, by simp, by simpa using hj, h1, h2, hw⟩
        · obtain ⟨i, j, oa, ob, hij, hi, hj, h1, h2, hw⟩ := ih htail t ht2
          exact ⟨i + 1, j + 1, oa, ob, Nat.succ_lt_succ hij,
            by simpa using hi, by simpa using hj, h1, h2, hw⟩

/-- The dimension labels of one block form a sublist of the singleton of its
own dimension. -/
lemma tradeoffBlock_dims_sublist (dim : String) (expl : String → String → String)
    (va vb : ℚ) (a b : TechOption) :
    ((tradeoffBlock dim expl va vb a b).map (fun t => t.dimension)).Sublist [dim] := by
  unfold tradeoffBlock
  by_cases h : |va - vb| > 1
  · rw [if_pos h]
    exact List.Sublist.refl _
  · rw [if_neg h]
    exact List.nil_sublist _

/-- Within one pair, the emitted trade-offs appear in the fixed dimension
order cost, latency, scalability, compliance, cloud, skill. -/
lemma compareOptionsPair_dims_sublist (a b : TechOption) (sa sb : OptionScore) :
    ((compareOptionsPair a b sa sb).map (fun t => t.dimension)).Sublist
      ["cost", "latency", "scalability", "compliance", "cloud", "skill"] := by
  unfold compareOptionsPair
  rw [List.map_append, List.map_append, List.map_append, List.map_append, List.map_append]
  have htarget : (["cost", "latency", "scalability", "compliance", "cloud", "skill"] :
      List String) =
      ["cost"] ++ ["latency"] ++ ["scalability"] ++ ["compliance"] ++ ["cloud"] ++ ["skill"] := rfl
  rw [htarget]
  exact ((((((tradeoffBlock_dims_sublist _ _ _ _ _ _).append
    (tradeoffBlock_dims_sublist _ _ _ _ _ _)).append
    (tradeoffBlock_dims_sublist _ _ _ _ _ _)).append
    (tradeoffBlock_dims_sublist _ _ _ _ _ _)).append
    (tradeoffBlock_dims_sublist _ _ _ _ _ _)).append
    (tradeoffBlock_dims_sublist _ _ _ _ _ _))

/-- C10: in every trade-off emitted by `generate_tradeoffs`, `option_a` is
an option occurring strictly earlier in the input list than `option_b`, the
winner equals one of the two, and within each compared pair the trade-offs
follow the fixed dimension order. -/
theorem tradeoffs_orientation_winner_dimension_order (options : List TechOption)
    (scores : List OptionScore) (l : List TradeOff)
    (h : generateTradeoffs options scores = .ok l) :
    (∀ t ∈ l, ∃ (i j : ℕ) (oa ob : TechOption), i < j ∧
      options[i]? = some oa ∧ options[j]? = some ob ∧
      t.option_a = oa.name ∧ t.option_b = ob.name ∧
      (t.winner = t.option_a ∨ t.winner = t.option_b)) ∧
    ∀ (a b : TechOption) (sa sb : OptionScore),
      ((compareOptionsPair a b sa sb).map (fun t => t.dimension)).Sublist
        ["cost", "latency", "scalability", "compliance", "cloud", "skill"] :=
  ⟨generateTradeoffsAux_mem h, fun a b sa sb => compareOptionsPair_dims_sublist a b sa sb⟩

/-- Witness for C10: on the sample run, the emitted scalability trade-off's
winner is one of its own two endpoints. -/
theorem tradeoffs_orientation_winner_dimension_order_witness :
    sampleScalabilityTradeoff.winner = sampleScalabilityTradeoff.option_a ∨
    sampleScalabilityTradeoff.winner = sampleScalabilityTradeoff.option_b := by
  obtain ⟨i, j, oa, ob, -, -, -, -, -, hw⟩ :=
    (tradeoffs_orientation_winner_dimension_order [sampleOptionA, sampleOptionB]
      (scoreOptions [sampleOptionA, sampleOptionB] sampleConstraints)
      sampleRunTradeoffs (by rfl)).1 sampleScalabilityTradeoff (by simp [sampleRunTradeoffs])
  exact hw

end MainTheorems

end DecisionPlatform
